import Mathlib

set_option maxRecDepth 4000

/-!
Verification of the FT6336U touch-controller driver's scan/decode logic.

The driver is embedded shallowly: machine bytes are `Nat` with explicit
masking where the register width matters, the I2C transport is an oracle
mapping each sequential register exchange to either a byte pair or a
transport failure, and the driver's mutable `touch_data` cache is threaded
explicitly through `scan`.
-/

namespace FT6336U

/-- Embeds `TouchStatus` from types.rs: lifecycle status of one touch slot. -/
inductive TouchStatus where
  | Touch
  | Stream
  | Release
deriving DecidableEq, Repr

/-- Embeds `TouchPoint` from types.rs: status plus 12-bit x/y coordinates. -/
structure TouchPoint where
  status : TouchStatus
  x : Nat
  y : Nat
deriving DecidableEq, Repr

/-- Embeds `TouchPoint::default` from types.rs: `Release` with zero coordinates. -/
def TouchPoint.default : TouchPoint :=
  { status := TouchStatus.Release, x := 0, y := 0 }

/-- Embeds `TouchData` from types.rs: touch count and the two slots
(`points[0]`, `points[1]`). -/
structure TouchData where
  touch_count : Nat
  p0 : TouchPoint
  p1 : TouchPoint
deriving DecidableEq, Repr

/-- Embeds `TouchData::default`: zero count, both slots at their default. -/
def TouchData.default : TouchData :=
  { touch_count := 0, p0 := TouchPoint.default, p1 := TouchPoint.default }

/-- Read of `self.touch_data.points[i]` for `i < 2`. -/
def TouchData.point (d : TouchData) (i : Nat) : TouchPoint :=
  if i = 0 then d.p0 else d.p1

/-- Write slot `i` of the points array. -/
def TouchData.setPoint (d : TouchData) (i : Nat) (p : TouchPoint) : TouchData :=
  if i = 0 then { d with p0 := p } else { d with p1 := p }

/-- Write of `self.touch_data.points[i].status`. -/
def TouchData.setStatus (d : TouchData) (i : Nat) (s : TouchStatus) : TouchData :=
  d.setPoint i { d.point i with status := s }

/-- Write of `self.touch_data.points[i].x`. -/
def TouchData.setX (d : TouchData) (i : Nat) (v : Nat) : TouchData :=
  d.setPoint i { d.point i with x := v }

/-- Write of `self.touch_data.points[i].y`. -/
def TouchData.setY (d : TouchData) (i : Nat) (v : Nat) : TouchData :=
  d.setPoint i { d.point i with y := v }

/-- Embeds `DeviceMode` from types.rs: `Working = 0b000`, `Factory = 0b100`. -/
inductive DeviceMode where
  | Working
  | Factory
deriving DecidableEq, Repr

/-- The `repr(u8)` discriminant of `DeviceMode`. -/
def DeviceMode.discriminant : DeviceMode → Nat
  | DeviceMode.Working => 0b000
  | DeviceMode.Factory => 0b100

/-- Embeds `DeviceMode::from_register` from types.rs: match on `val & 0b111`,
mapping `0b000` to `Working`, `0b100` to `Factory`, anything else to `None`. -/
def DeviceMode.from_register (val : Nat) : Option DeviceMode :=
  if val &&& 0b111 = 0b000 then some DeviceMode.Working
  else if val &&& 0b111 = 0b100 then some DeviceMode.Factory
  else none

/-- Embeds `DeviceMode::to_register` from types.rs: `(self as u8) << 4`. -/
def DeviceMode.to_register (m : DeviceMode) : Nat :=
  m.discriminant <<< 4

/-- The bit extraction performed by `FT6336U::read_device_mode` in driver.rs
on the mode-register byte: `(val & 0x70) >> 4`. -/
def deviceModeBits (val : Nat) : Nat :=
  (val &&& 0x70) >>> 4

/-- The 12-bit coordinate decode shared by `read_touch1_x`, `read_touch1_y`,
`read_touch2_x` and `read_touch2_y` in driver.rs:
`(((buf[0] & 0x0F) as u16) << 8) | (buf[1] as u16)`. -/
def decode12 (b0 b1 : Nat) : Nat :=
  ((b0 &&& 0x0F) <<< 8) ||| b1

/-- Modelled from the spec: the 12-bit big-endian-in-nibble packing rule the
spec states coordinate decoding inverts — a value `v` in `[0, 4095]` is packed
as a high byte carrying `v`'s top four bits in its low nibble and a low byte
carrying `v`'s bottom eight bits. The repository has no packing function;
only the decode direction exists in driver.rs. -/
def pack12 (v : Nat) : Nat × Nat :=
  (v >>> 8, v % 256)

/-- One I2C register exchange outcome: the bytes the device returns (scan
reads are one or two bytes wide; `b1` is unused by one-byte reads), or a bus
failure. -/
inductive ReadResult where
  | ok (b0 b1 : Nat)
  | err
deriving DecidableEq, Repr

/-- The transport, as the sequence of raw register-read outcomes it supplies:
`o k` is what the `k`-th `write_read` exchange issued by a scan returns. -/
def Oracle := Nat → ReadResult

/-- Embeds `Error` from error.rs: `I2c` transport failure or `InvalidData`. The
transport's native error type is modelled as carried implicitly. -/
inductive Error where
  | i2c
  | invalidData
deriving DecidableEq, Repr

/-- Embeds `FT6336U::read_byte`: a one-byte register read. The buffer holds `u8`, so
the supplied byte is reduced mod 256. Returns the byte and the index of the
next exchange. -/
def read_byte (o : Oracle) (k : Nat) : Except Error (Nat × Nat) :=
  match o k with
  | ReadResult.ok b0 _ => Except.ok (b0 % 256, k + 1)
  | ReadResult.err => Except.error Error.i2c

/-- Embeds `FT6336U::read_touch_number`: `val & 0x0F` of the TD_STATUS byte. -/
def read_touch_number (o : Oracle) (k : Nat) : Except Error (Nat × Nat) :=
  match read_byte o k with
  | Except.ok (val, k') => Except.ok (val &&& 0x0F, k')
  | Except.error e => Except.error e

/-- Embeds `FT6336U::read_touch1_id`: `val >> 4` of the point-1 id byte. -/
def read_touch1_id (o : Oracle) (k : Nat) : Except Error (Nat × Nat) :=
  match read_byte o k with
  | Except.ok (val, k') => Except.ok (val >>> 4, k')
  | Except.error e => Except.error e

/-- Embeds `FT6336U::read_touch2_id`: `val >> 4` of the point-2 id byte. -/
def read_touch2_id (o : Oracle) (k : Nat) : Except Error (Nat × Nat) :=
  match read_byte o k with
  | Except.ok (val, k') => Except.ok (val >>> 4, k')
  | Except.error e => Except.error e

/-- Embeds `FT6336U::read_touch1_x`: one two-byte exchange decoded with `decode12`. -/
def read_touch1_x (o : Oracle) (k : Nat) : Except Error (Nat × Nat) :=
  match o k with
  | ReadResult.ok b0 b1 => Except.ok (decode12 (b0 % 256) (b1 % 256), k + 1)
  | ReadResult.err => Except.error Error.i2c

/-- Embeds `FT6336U::read_touch1_y`: one two-byte exchange decoded with `decode12`. -/
def read_touch1_y (o : Oracle) (k : Nat) : Except Error (Nat × Nat) :=
  match o k with
  | ReadResult.ok b0 b1 => Except.ok (decode12 (b0 % 256) (b1 % 256), k + 1)
  | ReadResult.err => Except.error Error.i2c

/-- Embeds `FT6336U::read_touch2_x`: one two-byte exchange decoded with `decode12`. -/
def read_touch2_x (o : Oracle) (k : Nat) : Except Error (Nat × Nat) :=
  match o k with
  | ReadResult.ok b0 b1 => Except.ok (decode12 (b0 % 256) (b1 % 256), k + 1)
  | ReadResult.err => Except.error Error.i2c

/-- Embeds `FT6336U::read_touch2_y`: one two-byte exchange decoded with `decode12`. -/
def read_touch2_y (o : Oracle) (k : Nat) : Except Error (Nat × Nat) :=
  match o k with
  | ReadResult.ok b0 b1 => Except.ok (decode12 (b0 % 256) (b1 % 256), k + 1)
  | ReadResult.err => Except.error Error.i2c

/-- The Touch/Stream status update written by `scan`:
`match prev { Release => Touch, _ => Stream }`. -/
def touchStep : TouchStatus → TouchStatus
  | TouchStatus.Release => TouchStatus.Touch
  | _ => TouchStatus.Stream

/-- The second half of the two-point branch of `FT6336U::scan` (driver.rs,
the `id2` block): read point 2's id at exchange `k`, and when it is a valid
slot index apply the Touch/Stream status update and the point-2 coordinate
reads. Returns the `Result` the rest of the scan produces together with the
cache as it leaves it. -/
def scan_point2 (o : Oracle) (k : Nat) (td : TouchData) :
    Except Error TouchData × TouchData :=
  match read_touch2_id o k with
  | Except.error e => (Except.error e, td)
  | Except.ok (id2, k) =>
    if id2 < 2 then
      let td := td.setStatus id2 (touchStep (td.point id2).status)
      match read_touch2_x o k with
      | Except.error e => (Except.error e, td)
      | Except.ok (x, k) =>
        let td := td.setX id2 x
        match read_touch2_y o k with
        | Except.error e => (Except.error e, td)
        | Except.ok (y, _) =>
          let td := td.setY id2 y
          (Except.ok td, td)
    else (Except.ok td, td)

/-- Embeds `FT6336U::scan` from driver.rs (blocking mode), with the driver's cached
`touch_data` threaded explicitly. Returns the `Result` of the call together
with the cache as the call leaves it: on a failure the mutations already
performed remain committed, exactly as in the source, where `self.touch_data`
is updated in place before later reads. `(!id1) & 0x01` on `usize` is
`(2^64 - 1 - id1) &&& 0x01` for `id1 < 2^64`. -/
def scan (o : Oracle) (td : TouchData) : Except Error TouchData × TouchData :=
  match read_touch_number o 0 with
  | Except.error e => (Except.error e, td)
  | Except.ok (touch_count, k) =>
    let td := { td with touch_count := touch_count }
    if touch_count = 0 then
      let td := td.setStatus 0 TouchStatus.Release
      let td := td.setStatus 1 TouchStatus.Release
      (Except.ok td, td)
    else if touch_count = 1 then
      match read_touch1_id o k with
      | Except.error e => (Except.error e, td)
      | Except.ok (id1, k) =>
        if id1 < 2 then
          let td := td.setStatus id1 (touchStep (td.point id1).status)
          match read_touch1_x o k with
          | Except.error e => (Except.error e, td)
          | Except.ok (x, k) =>
            let td := td.setX id1 x
            match read_touch1_y o k with
            | Except.error e => (Except.error e, td)
            | Except.ok (y, _) =>
              let td := td.setY id1 y
              let other_id := (2 ^ 64 - 1 - id1) &&& 0x01
              let td := td.setStatus other_id TouchStatus.Release
              (Except.ok td, td)
        else (Except.ok td, td)
    else
      match read_touch1_id o k with
      | Except.error e => (Except.error e, td)
      | Except.ok (id1, k) =>
        if id1 < 2 then
          let td := td.setStatus id1 (touchStep (td.point id1).status)
          match read_touch1_x o k with
          | Except.error e => (Except.error e, td)
          | Except.ok (x, k) =>
            let td := td.setX id1 x
            match read_touch1_y o k with
            | Except.error e => (Except.error e, td)
            | Except.ok (y, k) =>
              let td := td.setY id1 y
              scan_point2 o k td
        else
          scan_point2 o k td

/-- Embeds `FT6336U::read_byte` from driver_async.rs: identical to the blocking
variant; suspension points do not change the value read. -/
def read_byte_async (o : Oracle) (k : Nat) : Except Error (Nat × Nat) :=
  match o k with
  | ReadResult.ok b0 _ => Except.ok (b0 % 256, k + 1)
  | ReadResult.err => Except.error Error.i2c

/-- Embeds `FT6336U::read_touch_number` from driver_async.rs. -/
def read_touch_number_async (o : Oracle) (k : Nat) : Except Error (Nat × Nat) :=
  match read_byte_async o k with
  | Except.ok (val, k') => Except.ok (val &&& 0x0F, k')
  | Except.error e => Except.error e

/-- Embeds `FT6336U::read_touch1_id` from driver_async.rs. -/
def read_touch1_id_async (o : Oracle) (k : Nat) : Except Error (Nat × Nat) :=
  match read_byte_async o k with
  | Except.ok (val, k') => Except.ok (val >>> 4, k')
  | Except.error e => Except.error e

/-- Embeds `FT6336U::read_touch2_id` from driver_async.rs. -/
def read_touch2_id_async (o : Oracle) (k : Nat) : Except Error (Nat × Nat) :=
  match read_byte_async o k with
  | Except.ok (val, k') => Except.ok (val >>> 4, k')
  | Except.error e => Except.error e

/-- Embeds `FT6336U::read_touch1_x` from driver_async.rs. -/
def read_touch1_x_async (o : Oracle) (k : Nat) : Except Error (Nat × Nat) :=
  match o k with
  | ReadResult.ok b0 b1 => Except.ok (decode12 (b0 % 256) (b1 % 256), k + 1)
  | ReadResult.err => Except.error Error.i2c

/-- Embeds `FT6336U::read_touch1_y` from driver_async.rs. -/
def read_touch1_y_async (o : Oracle) (k : Nat) : Except Error (Nat × Nat) :=
  match o k with
  | ReadResult.ok b0 b1 => Except.ok (decode12 (b0 % 256) (b1 % 256), k + 1)
  | ReadResult.err => Except.error Error.i2c

/-- Embeds `FT6336U::read_touch2_x` from driver_async.rs. -/
def read_touch2_x_async (o : Oracle) (k : Nat) : Except Error (Nat × Nat) :=
  match o k with
  | ReadResult.ok b0 b1 => Except.ok (decode12 (b0 % 256) (b1 % 256), k + 1)
  | ReadResult.err => Except.error Error.i2c

/-- Embeds `FT6336U::read_touch2_y` from driver_async.rs. -/
def read_touch2_y_async (o : Oracle) (k : Nat) : Except Error (Nat × Nat) :=
  match o k with
  | ReadResult.ok b0 b1 => Except.ok (decode12 (b0 % 256) (b1 % 256), k + 1)
  | ReadResult.err => Except.error Error.i2c

/-- The second half of the two-point branch of `FT6336U::scan` from
driver_async.rs (the `id2` block). -/
def scan_point2_async (o : Oracle) (k : Nat) (td : TouchData) :
    Except Error TouchData × TouchData :=
  match read_touch2_id_async o k with
  | Except.error e => (Except.error e, td)
  | Except.ok (id2, k) =>
    if id2 < 2 then
      let td := td.setStatus id2 (touchStep (td.point id2).status)
      match read_touch2_x_async o k with
      | Except.error e => (Except.error e, td)
      | Except.ok (x, k) =>
        let td := td.setX id2 x
        match read_touch2_y_async o k with
        | Except.error e => (Except.error e, td)
        | Except.ok (y, _) =>
          let td := td.setY id2 y
          (Except.ok td, td)
    else (Except.ok td, td)

/-- Embeds `FT6336U::scan` from driver_async.rs (suspending mode). The `await`
points in the source suspend between issuing an exchange and consuming its
reply; the sequence of exchanges and every data-flow step is that of the
blocking scan. -/
def scan_async (o : Oracle) (td : TouchData) : Except Error TouchData × TouchData :=
  match read_touch_number_async o 0 with
  | Except.error e => (Except.error e, td)
  | Except.ok (touch_count, k) =>
    let td := { td with touch_count := touch_count }
    if touch_count = 0 then
      let td := td.setStatus 0 TouchStatus.Release
      let td := td.setStatus 1 TouchStatus.Release
      (Except.ok td, td)
    else if touch_count = 1 then
      match read_touch1_id_async o k with
      | Except.error e => (Except.error e, td)
      | Except.ok (id1, k) =>
        if id1 < 2 then
          let td := td.setStatus id1 (touchStep (td.point id1).status)
          match read_touch1_x_async o k with
          | Except.error e => (Except.error e, td)
          | Except.ok (x, k) =>
            let td := td.setX id1 x
            match read_touch1_y_async o k with
            | Except.error e => (Except.error e, td)
            | Except.ok (y, _) =>
              let td := td.setY id1 y
              let other_id := (2 ^ 64 - 1 - id1) &&& 0x01
              let td := td.setStatus other_id TouchStatus.Release
              (Except.ok td, td)
        else (Except.ok td, td)
    else
      match read_touch1_id_async o k with
      | Except.error e => (Except.error e, td)
      | Except.ok (id1, k) =>
        if id1 < 2 then
          let td := td.setStatus id1 (touchStep (td.point id1).status)
          match read_touch1_x_async o k with
          | Except.error e => (Except.error e, td)
          | Except.ok (x, k) =>
            let td := td.setX id1 x
            match read_touch1_y_async o k with
            | Except.error e => (Except.error e, td)
            | Except.ok (y, k) =>
              let td := td.setY id1 y
              scan_point2_async o k td
        else
          scan_point2_async o k td

/-- The decoded touch count of the scan an oracle describes (exchange 0). -/
def decodedCount (o : Oracle) : Option Nat :=
  match o 0 with
  | ReadResult.ok b0 _ => some (b0 % 256 &&& 0x0F)
  | ReadResult.err => none

/-- The decoded id of the first reported point (exchange 1). -/
def decodedId1 (o : Oracle) : Option Nat :=
  match o 1 with
  | ReadResult.ok b0 _ => some ((b0 % 256) >>> 4)
  | ReadResult.err => none

/-- The decoded id of the second reported point of a two-point scan whose
first point was valid, so that the second id is exchange 4. -/
def decodedId2 (o : Oracle) : Option Nat :=
  match o 4 with
  | ReadResult.ok b0 _ => some ((b0 % 256) >>> 4)
  | ReadResult.err => none

/-- Whether slot `i`'s id appears in the scan the oracle describes: never for
count 0; as the single reported id for count 1; as either reported id for
count ≥ 2. -/
def slotPresent (o : Oracle) (i : Nat) : Bool :=
  match decodedCount o with
  | none => false
  | some c =>
    if c = 0 then false
    else if c = 1 then decodedId1 o = some i
    else decodedId1 o = some i || decodedId2 o = some i

/-- A well-formed scan: decoded count 0; count 1 with the reported id in
{0, 1}; or count ≥ 2 with both reported ids in {0, 1} and distinct. -/
def wellFormedScan (o : Oracle) : Bool :=
  match decodedCount o with
  | none => false
  | some c =>
    if c = 0 then true
    else if c = 1 then
      match decodedId1 o with
      | some i => i < 2
      | none => false
    else
      match decodedId1 o, decodedId2 o with
      | some i, some j => i < 2 && j < 2 && i ≠ j
      | _, _ => false

/-- Modelled from the spec: the per-slot lifecycle state machine of §4.2 —
`Release×Present→Touch`, `Touch×Present→Stream`, `Stream×Present→Stream`,
`any×Absent→Release`. This is the spec's transition rule, to be compared
with what `scan` computes. -/
def specMachineStep (s : TouchStatus) (present : Bool) : TouchStatus :=
  if present then
    match s with
    | TouchStatus.Release => TouchStatus.Touch
    | _ => TouchStatus.Stream
  else TouchStatus.Release

/-- A transport trace reporting count 1 with the out-of-range point id 9
(id byte `0x90`); later exchanges are never reached. -/
def oInvalidId : Oracle := fun k =>
  if k = 0 then ReadResult.ok 1 0
  else if k = 1 then ReadResult.ok 0x90 0
  else ReadResult.err

/-- A cached state whose slot 0 is mid-stream. -/
def tdStream : TouchData :=
  { touch_count := 1, p0 := { status := TouchStatus.Stream, x := 5, y := 6 },
    p1 := TouchPoint.default }

/-- A transport trace whose status-register read succeeds with count 1 and
whose every later exchange fails. -/
def oFailAfterCount : Oracle := fun k =>
  if k = 0 then ReadResult.ok 1 0 else ReadResult.err

/-- A transport trace that fails on every exchange. -/
def oAllFail : Oracle := fun _ => ReadResult.err

/-- A transport trace reporting touch count 0. -/
def oCountZero : Oracle := fun _ => ReadResult.ok 0 0

/-- A cached state with both slots active and nonzero coordinates. -/
def tdBusy : TouchData :=
  { touch_count := 2, p0 := { status := TouchStatus.Touch, x := 11, y := 22 },
    p1 := { status := TouchStatus.Stream, x := 33, y := 44 } }

/-- A transport trace reporting count 1, id 1 (id byte `0x10`), x = 7, y = 8. -/
def oSingleId1 : Oracle := fun k =>
  if k = 0 then ReadResult.ok 1 0
  else if k = 1 then ReadResult.ok 0x10 0
  else if k = 2 then ReadResult.ok 0 7
  else if k = 3 then ReadResult.ok 0 8
  else ReadResult.err

/-- What `scan` produces from `tdStream` on the `oSingleId1` trace. -/
def rSingleId1 : TouchData :=
  { touch_count := 1, p0 := { status := TouchStatus.Release, x := 5, y := 6 },
    p1 := { status := TouchStatus.Touch, x := 7, y := 8 } }

/-- A transport trace whose status byte is `0xAB` (decoded count 11, above
2) and whose every later exchange fails. -/
def oOverCount : Oracle := fun k =>
  if k = 0 then ReadResult.ok 0xAB 0 else ReadResult.err

/-- First scan of the spec's literal scenario: count 1, id 0, x = 100,
y = 200. -/
def oScan1 : Oracle := fun k =>
  if k = 0 then ReadResult.ok 1 0
  else if k = 1 then ReadResult.ok 0 0
  else if k = 2 then ReadResult.ok 0 100
  else if k = 3 then ReadResult.ok 0 200
  else ReadResult.err

/-- Second scan of the literal scenario: count 1, id 0, x = 105, y = 205. -/
def oScan2 : Oracle := fun k =>
  if k = 0 then ReadResult.ok 1 0
  else if k = 1 then ReadResult.ok 0 0
  else if k = 2 then ReadResult.ok 0 105
  else if k = 3 then ReadResult.ok 0 205
  else ReadResult.err

/-- Third scan of the literal scenario: count 0. -/
def oScan3 : Oracle := fun _ => ReadResult.ok 0 0

end FT6336U

namespace FT6336U

/-- C3: coordinate decoding inverts the 12-bit packing rule on `[0, 4095]`. -/
theorem decode12_pack12 (v : Nat) (h : v ≤ 4095) :
    decode12 (pack12 v).1 (pack12 v).2 = v := by
  have key : ∀ q : Fin 16, ∀ r : Fin 256,
      ((q.val &&& 15) <<< 8) ||| r.val = 256 * q.val + r.val := by decide
  have hq : v / 256 < 16 := by omega
  have hr : v % 256 < 256 := Nat.mod_lt _ (by norm_num)
  have hs : v >>> 8 = v / 256 := by
    rw [Nat.shiftRight_eq_div_pow]
  calc decode12 (pack12 v).1 (pack12 v).2
      = ((v / 256 &&& 15) <<< 8) ||| v % 256 := by simp only [decode12, pack12, hs]
    _ = 256 * (v / 256) + v % 256 := key ⟨v / 256, hq⟩ ⟨v % 256, hr⟩
    _ = v := by omega

/-- Witness for C3 at `v = 3000`. -/
theorem decode12_pack12_witness :
    (3000 : Nat) ≤ 4095 ∧ decode12 (pack12 3000).1 (pack12 3000).2 = 3000 :=
  ⟨by decide, decode12_pack12 3000 (by decide)⟩

/-- C8: for every mode-register byte, composing the driver's bit extraction
`(b & 0x70) >> 4` with `DeviceMode::from_register` yields `some Working`
exactly when the extracted value is `0`, `some Factory` exactly when it is
`4`, and `none` for every other extracted value. -/
theorem device_mode_decode (b : Fin 256) :
    (DeviceMode.from_register (deviceModeBits b.val) = some DeviceMode.Working ↔
      deviceModeBits b.val = 0) ∧
    (DeviceMode.from_register (deviceModeBits b.val) = some DeviceMode.Factory ↔
      deviceModeBits b.val = 4) ∧
    (deviceModeBits b.val ≠ 0 → deviceModeBits b.val ≠ 4 →
      DeviceMode.from_register (deviceModeBits b.val) = none) := by
  revert b; decide

/-- C10: `DeviceMode::from_register` depends only on the low three bits of
its argument, and the register round-trip collapses `Factory` to `Working`:
`from_register (Factory.to_register) = some Working` while
`from_register (Working.to_register) = some Working`. -/
theorem from_register_low_bits :
    (∀ b : Fin 256,
      DeviceMode.from_register b.val = DeviceMode.from_register (b.val &&& 0b111)) ∧
    DeviceMode.Factory.to_register = 0x40 ∧
    DeviceMode.from_register DeviceMode.Factory.to_register = some DeviceMode.Working ∧
    DeviceMode.from_register DeviceMode.Working.to_register = some DeviceMode.Working := by
  refine ⟨?_, ?_, ?_, ?_⟩ <;> decide

/-- Writing one slot leaves `touch_count` unchanged. -/
theorem touch_count_setPoint (d : TouchData) (i : Nat) (p : TouchPoint) :
    (d.setPoint i p).touch_count = d.touch_count := by
  unfold TouchData.setPoint; split <;> rfl

/-- Writing one slot's status leaves `touch_count` unchanged. -/
theorem touch_count_setStatus (d : TouchData) (i : Nat) (s : TouchStatus) :
    (d.setStatus i s).touch_count = d.touch_count :=
  touch_count_setPoint ..

/-- Writing one slot's x coordinate leaves `touch_count` unchanged. -/
theorem touch_count_setX (d : TouchData) (i v : Nat) :
    (d.setX i v).touch_count = d.touch_count :=
  touch_count_setPoint ..

/-- Writing one slot's y coordinate leaves `touch_count` unchanged. -/
theorem touch_count_setY (d : TouchData) (i v : Nat) :
    (d.setY i v).touch_count = d.touch_count :=
  touch_count_setPoint ..

/-- The second-point block never changes `touch_count` in the cache. -/
theorem scan_point2_cache_touch_count (o : Oracle) (k : Nat) (td : TouchData) :
    (scan_point2 o k td).2.touch_count = td.touch_count := by
  unfold scan_point2
  repeat' split
  all_goals simp [touch_count_setStatus, touch_count_setX, touch_count_setY]

/-- When the second-point block reports success, the snapshot it returns is
the cache it leaves behind. -/
theorem scan_point2_coherent (o : Oracle) (k : Nat) (td : TouchData) (r : TouchData) :
    (scan_point2 o k td).1 = Except.ok r → (scan_point2 o k td).2 = r := by
  unfold scan_point2
  repeat' split
  all_goals intro h
  all_goals simp_all

/-- When `scan` reports success, the snapshot it returns is the cache it
leaves behind. -/
theorem scan_coherent (o : Oracle) (td : TouchData) (r : TouchData) :
    (scan o td).1 = Except.ok r → (scan o td).2 = r := by
  unfold scan
  repeat' split
  all_goals intro h
  all_goals first
    | exact scan_point2_coherent _ _ _ _ h
    | simp_all

/-- C5: for every previous cached state, a scan decoding touch count 0 sets
both slots to `Release` and leaves both slots' coordinates unchanged. -/
theorem scan_count_zero (o : Oracle) (td : TouchData) (b0 b1 : Nat)
    (h : o 0 = ReadResult.ok b0 b1) (hc : b0 % 256 &&& 0x0F = 0) :
    ∃ r, scan o td = (Except.ok r, r) ∧
      r.p0.status = TouchStatus.Release ∧ r.p1.status = TouchStatus.Release ∧
      r.p0.x = td.p0.x ∧ r.p0.y = td.p0.y ∧ r.p1.x = td.p1.x ∧ r.p1.y = td.p1.y := by
  refine ⟨{ touch_count := 0,
            p0 := { td.p0 with status := TouchStatus.Release },
            p1 := { td.p1 with status := TouchStatus.Release } }, ?_, rfl, rfl, rfl, rfl, rfl, rfl⟩
  simp [scan, read_touch_number, read_byte, h, hc, TouchData.setStatus, TouchData.setPoint,
    TouchData.point]

/-- Witness for C5: a count-0 scan from a busy cached state releases both
slots and keeps their coordinates. -/
theorem scan_count_zero_witness :
    oCountZero 0 = ReadResult.ok 0 0 ∧ (0 % 256 &&& 0x0F = 0) ∧
    (∃ r, scan oCountZero tdBusy = (Except.ok r, r) ∧
      r.p0.status = TouchStatus.Release ∧ r.p1.status = TouchStatus.Release ∧
      r.p0.x = tdBusy.p0.x ∧ r.p0.y = tdBusy.p0.y ∧
      r.p1.x = tdBusy.p1.x ∧ r.p1.y = tdBusy.p1.y) :=
  ⟨rfl, by decide, scan_count_zero oCountZero tdBusy 0 0 rfl (by decide)⟩

/-- C6: a successful scan decoding count 1 with a reported id in {0, 1}
forces the other slot (`1 - id`) to `Release`, whatever its previous
status. -/
theorem scan_single_other_release (o : Oracle) (td : TouchData) (b0 b1 c0 c1 : Nat)
    (r : TouchData)
    (h0 : o 0 = ReadResult.ok b0 b1) (hc : b0 % 256 &&& 0x0F = 1)
    (h1 : o 1 = ReadResult.ok c0 c1) (hid : (c0 % 256) >>> 4 < 2)
    (hs : (scan o td).1 = Except.ok r) :
    (r.point (1 - (c0 % 256) >>> 4)).status = TouchStatus.Release := by
  have h64a : ((2:Nat) ^ 64 - 1 - 0) &&& 0x01 = 1 := by decide
  have h64b : ((2:Nat) ^ 64 - 1 - 1) &&& 0x01 = 0 := by decide
  rcases h2 : o 2 with ⟨x0, x1⟩ | _
  case _ =>
    rcases h3 : o 3 with ⟨y0, y1⟩ | _
    case _ =>
      have hjj : (c0 % 256) >>> 4 = 0 ∨ (c0 % 256) >>> 4 = 1 := by omega
      rcases hjj with hj | hj <;>
      · simp [scan, read_touch_number, read_byte, read_touch1_id, read_touch1_x,
          read_touch1_y, h0, hc, h1, h2, h3, hj, h64a, h64b, TouchData.setStatus,
          TouchData.setPoint, TouchData.setX, TouchData.setY, TouchData.point] at hs
        subst hs
        simp [hj, TouchData.point, TouchData.setStatus, TouchData.setPoint,
          TouchData.setX, TouchData.setY]
    case _ =>
      simp [scan, read_touch_number, read_byte, read_touch1_id, read_touch1_x,
        read_touch1_y, h0, hc, h1, h2, h3, hid] at hs
  case _ =>
    simp [scan, read_touch_number, read_byte, read_touch1_id, read_touch1_x,
      h0, hc, h1, h2, hid] at hs

/-- Witness for C6: count 1 with id 1 releases slot 0 even though slot 0 was
previously `Stream`. -/
theorem scan_single_other_release_witness :
    oSingleId1 0 = ReadResult.ok 1 0 ∧ (1 % 256 &&& 0x0F = 1) ∧
    oSingleId1 1 = ReadResult.ok 0x10 0 ∧ ((0x10 % 256) >>> 4 < 2) ∧
    tdStream.p0.status = TouchStatus.Stream ∧
    (scan oSingleId1 tdStream).1 = Except.ok rSingleId1 ∧
    (rSingleId1.point (1 - (0x10 % 256) >>> 4)).status = TouchStatus.Release :=
  ⟨rfl, by decide, rfl, by decide, rfl, rfl,
    scan_single_other_release oSingleId1 tdStream 1 0 0x10 0 rSingleId1 rfl (by decide)
      rfl (by decide) rfl⟩

/-- C7: for every status byte (including low nibbles above 2), the scan
writes `b & 0x0F` to the cached `touch_count` before any slot mutation —
the cache carries it even when a later read fails — and a successful scan's
returned snapshot carries it too. -/
theorem scan_touch_count (o : Oracle) (td : TouchData) (b0 b1 : Nat)
    (h : o 0 = ReadResult.ok b0 b1) :
    (scan o td).2.touch_count = b0 % 256 &&& 0x0F ∧
    (∀ r, (scan o td).1 = Except.ok r → r.touch_count = b0 % 256 &&& 0x0F) := by
  have hcache : (scan o td).2.touch_count = b0 % 256 &&& 0x0F := by
    simp only [scan, read_touch_number, read_byte, read_touch1_id, read_touch1_x,
      read_touch1_y, h]
    repeat' split
    all_goals
      simp [scan_point2_cache_touch_count, touch_count_setStatus, touch_count_setX,
        touch_count_setY]
  refine ⟨hcache, fun r hr => ?_⟩
  rw [← scan_coherent o td r hr]
  exact hcache

/-- Witness for C7: a status byte `0xAB` (low nibble 11) is committed to the
cache as touch count 11 even though the next read fails. -/
theorem scan_touch_count_witness :
    oOverCount 0 = ReadResult.ok 0xAB 0 ∧
    ((scan oOverCount tdBusy).2.touch_count = 0xAB % 256 &&& 0x0F ∧
      (∀ r, (scan oOverCount tdBusy).1 = Except.ok r →
        r.touch_count = 0xAB % 256 &&& 0x0F)) :=
  ⟨rfl, scan_touch_count oOverCount tdBusy 0xAB 0 rfl⟩

/-- C4: for every transport byte sequence and every starting cached state,
the suspending scan of driver_async.rs returns the same `TouchData` and
leaves the same cache as the blocking scan of driver.rs. -/
theorem scan_async_eq_scan (o : Oracle) (td : TouchData) :
    scan_async o td = scan o td := rfl

/-- C1 (amended): for well-formed scans — count 0; count 1 with the reported
id in {0, 1}; count ≥ 2 with both reported ids in {0, 1} and distinct — each
slot of a successful scan follows the lifecycle machine: a present slot maps
`Release` to `Touch` and `Touch`/`Stream` to `Stream`, an absent slot is
released. -/
theorem scan_state_machine (o : Oracle) (td : TouchData) (r : TouchData) (i : Nat)
    (hwf : wellFormedScan o = true) (hs : (scan o td).1 = Except.ok r) (hi : i < 2) :
    (r.point i).status = specMachineStep (td.point i).status (slotPresent o i) := by
  have h64a : ((2:Nat) ^ 64 - 1 - 0) &&& 0x01 = 1 := by decide
  have h64b : ((2:Nat) ^ 64 - 1 - 1) &&& 0x01 = 0 := by decide
  have hii : i = 0 ∨ i = 1 := by omega
  rcases h0 : o 0 with ⟨b0, b1⟩ | _
  case _ =>
    by_cases hc0 : b0 % 256 &&& 0x0F = 0
    · -- count = 0
      simp [scan, read_touch_number, read_byte, h0, hc0, TouchData.setStatus,
        TouchData.setPoint, TouchData.point] at hs
      subst hs
      rcases hii with rfl | rfl <;>
        simp [slotPresent, decodedCount, h0, hc0, specMachineStep, TouchData.point,
          TouchData.setStatus, TouchData.setPoint]
    · by_cases hc1 : b0 % 256 &&& 0x0F = 1
      · -- count = 1
        rcases h1 : o 1 with ⟨c0, c1⟩ | _
        case _ =>
          have hj : (c0 % 256) >>> 4 < 2 := by
            simpa [wellFormedScan, decodedCount, decodedId1, h0, h1, hc0, hc1] using hwf
          rcases h2 : o 2 with ⟨x0, x1⟩ | _
          case _ =>
            rcases h3 : o 3 with ⟨y0, y1⟩ | _
            case _ =>
              have hjj : (c0 % 256) >>> 4 = 0 ∨ (c0 % 256) >>> 4 = 1 := by omega
              rcases hjj with hj0 | hj0 <;>
                rcases hii with rfl | rfl <;>
                · simp [scan, read_touch_number, read_byte, read_touch1_id,
                    read_touch1_x, read_touch1_y, h0, hc0, hc1, h1, h2, h3, hj0,
                    h64a, h64b, TouchData.setStatus, TouchData.setPoint, TouchData.setX,
                    TouchData.setY, TouchData.point] at hs
                  subst hs
                  simp [slotPresent, decodedCount, decodedId1, h0, h1, hc0, hc1, hj0,
                    specMachineStep, touchStep, TouchData.point, TouchData.setStatus,
                    TouchData.setPoint, TouchData.setX, TouchData.setY]
            case _ =>
              simp [scan, read_touch_number, read_byte, read_touch1_id, read_touch1_x,
                read_touch1_y, h0, hc0, hc1, h1, h2, h3, hj] at hs
          case _ =>
            simp [scan, read_touch_number, read_byte, read_touch1_id, read_touch1_x,
              h0, hc0, hc1, h1, h2, hj] at hs
        case _ =>
          simp [wellFormedScan, decodedCount, decodedId1, h0, h1, hc0, hc1] at hwf
      · -- count ≥ 2
        rcases h1 : o 1 with ⟨c0, c1⟩ | _
        case _ =>
          rcases h4 : o 4 with ⟨d0, d1⟩ | _
          case _ =>
            have hw : ((c0 % 256) >>> 4 < 2 ∧ (d0 % 256) >>> 4 < 2) ∧
                ¬ (c0 % 256) >>> 4 = (d0 % 256) >>> 4 := by
              simpa [wellFormedScan, decodedCount, decodedId1, decodedId2, h0, h1, h4,
                hc0, hc1] using hwf
            obtain ⟨⟨hj1, hj2⟩, hne⟩ := hw
            rcases h2 : o 2 with ⟨x0, x1⟩ | _
            case _ =>
              rcases h3 : o 3 with ⟨y0, y1⟩ | _
              case _ =>
                rcases h5 : o 5 with ⟨u0, u1⟩ | _
                case _ =>
                  rcases h6 : o 6 with ⟨v0, v1⟩ | _
                  case _ =>
                    have hjj1 : (c0 % 256) >>> 4 = 0 ∨ (c0 % 256) >>> 4 = 1 := by omega
                    have hjj2 : (d0 % 256) >>> 4 = 0 ∨ (d0 % 256) >>> 4 = 1 := by omega
                    rcases hjj1 with hj10 | hj10 <;> rcases hjj2 with hj20 | hj20
                    case _ => simp [hj10, hj20] at hne
                    case _ =>
                      rcases hii with rfl | rfl <;>
                      · simp [scan, scan_point2, read_touch_number, read_byte,
                          read_touch1_id, read_touch1_x, read_touch1_y, read_touch2_id,
                          read_touch2_x, read_touch2_y, h0, hc0, hc1, h1, h2, h3, h4,
                          h5, h6, hj10, hj20, TouchData.setStatus, TouchData.setPoint,
                          TouchData.setX, TouchData.setY, TouchData.point] at hs
                        subst hs
                        simp [slotPresent, decodedCount, decodedId1, decodedId2, h0,
                          h1, h4, hc0, hc1, hj10, hj20, specMachineStep, touchStep,
                          TouchData.point, TouchData.setStatus, TouchData.setPoint,
                          TouchData.setX, TouchData.setY]
                    case _ =>
                      rcases hii with rfl | rfl <;>
                      · simp [scan, scan_point2, read_touch_number, read_byte,
                          read_touch1_id, read_touch1_x, read_touch1_y, read_touch2_id,
                          read_touch2_x, read_touch2_y, h0, hc0, hc1, h1, h2, h3, h4,
                          h5, h6, hj10, hj20, TouchData.setStatus, TouchData.setPoint,
                          TouchData.setX, TouchData.setY, TouchData.point] at hs
                        subst hs
                        simp [slotPresent, decodedCount, decodedId1, decodedId2, h0,
                          h1, h4, hc0, hc1, hj10, hj20, specMachineStep, touchStep,
                          TouchData.point, TouchData.setStatus, TouchData.setPoint,
                          TouchData.setX, TouchData.setY]
                    case _ => simp [hj10, hj20] at hne
                  case _ =>
                    simp [scan, scan_point2, read_touch_number, read_byte,
                      read_touch1_id, read_touch1_x, read_touch1_y, read_touch2_id,
                      read_touch2_x, read_touch2_y, h0, hc0, hc1, h1, h2, h3, h4, h5,
                      h6, hj1, hj2] at hs
                case _ =>
                  simp [scan, scan_point2, read_touch_number, read_byte, read_touch1_id,
                    read_touch1_x, read_touch1_y, read_touch2_id, read_touch2_x,
                    h0, hc0, hc1, h1, h2, h3, h4, h5, hj1, hj2] at hs
              case _ =>
                simp [scan, read_touch_number, read_byte, read_touch1_id, read_touch1_x,
                  read_touch1_y, h0, hc0, hc1, h1, h2, h3, hj1] at hs
            case _ =>
              simp [scan, read_touch_number, read_byte, read_touch1_id, read_touch1_x,
                h0, hc0, hc1, h1, h2, hj1] at hs
          case _ =>
            simp [wellFormedScan, decodedCount, decodedId1, decodedId2, h0, h1, h4,
              hc0, hc1] at hwf
        case _ =>
          simp [wellFormedScan, decodedCount, decodedId1, h0, h1, hc0, hc1] at hwf
  case _ =>
    simp [wellFormedScan, decodedCount, h0] at hwf

/-- Witness for C1: on a well-formed count-1 scan reporting id 1, slot 1
(present, previously `Release`) becomes `Touch` and slot 0 (absent,
previously `Stream`) becomes `Release`, as the machine prescribes. -/
theorem scan_state_machine_witness :
    wellFormedScan oSingleId1 = true ∧
    (scan oSingleId1 tdStream).1 = Except.ok rSingleId1 ∧ (0 : Nat) < 2 ∧
    (rSingleId1.point 0).status =
      specMachineStep (tdStream.point 0).status (slotPresent oSingleId1 0) :=
  ⟨rfl, rfl, by decide,
    scan_state_machine oSingleId1 tdStream rSingleId1 0 rfl rfl (by decide)⟩

/-- Counterexample to C1 as stated: a successful scan decoding count 1 with
the out-of-range id 9 leaves slot 0 — absent from the scan — at `Stream`
instead of releasing it. -/
theorem scan_state_machine_counterexample :
    slotPresent oInvalidId 0 = false ∧
    (scan oInvalidId tdStream).1 = Except.ok ((scan oInvalidId tdStream).2) ∧
    ((scan oInvalidId tdStream).2.point 0).status = TouchStatus.Stream ∧
    TouchStatus.Stream ≠ TouchStatus.Release :=
  ⟨rfl, rfl, rfl, by decide⟩

/-- C2 (amended): a transport failure on the scan's first register read
returns a transport error and leaves the cached `TouchData` exactly
unchanged. -/
theorem scan_first_read_failure (o : Oracle) (td : TouchData)
    (h : o 0 = ReadResult.err) :
    scan o td = (Except.error Error.i2c, td) := by
  simp [scan, read_touch_number, read_byte, h]

/-- Witness for C2: an all-failing transport aborts the scan with a
transport error and the busy cache is untouched. -/
theorem scan_first_read_failure_witness :
    oAllFail 0 = ReadResult.err ∧
    scan oAllFail tdBusy = (Except.error Error.i2c, tdBusy) :=
  ⟨rfl, scan_first_read_failure oAllFail tdBusy rfl⟩

/-- Counterexample to C2 as stated: when the count read succeeds (count 1)
and the id read fails, the scan returns an error yet the cached snapshot is
no longer what it was — `touch_count` has already been committed. -/
theorem scan_partial_commit_counterexample :
    (scan oFailAfterCount TouchData.default).1 = Except.error Error.i2c ∧
    (scan oFailAfterCount TouchData.default).2.touch_count = 1 ∧
    TouchData.default.touch_count = 0 ∧
    (scan oFailAfterCount TouchData.default).2 ≠ TouchData.default :=
  ⟨rfl, rfl, rfl, by decide⟩

/-- C9: from the freshly constructed tracker state, the spec's literal
scenario — count 1/id 0/(100, 200), then count 1/id 0/(105, 205), then
count 0 — produces `Touch` at (100, 200), then `Stream` at (105, 205), then
`Release` with the stale (105, 205); slot 1 stays `Release` with its
initial coordinates throughout. -/
theorem scan_literal_scenario :
    scan oScan1 TouchData.default =
      (Except.ok { touch_count := 1,
                   p0 := { status := TouchStatus.Touch, x := 100, y := 200 },
                   p1 := { status := TouchStatus.Release, x := 0, y := 0 } },
       { touch_count := 1,
         p0 := { status := TouchStatus.Touch, x := 100, y := 200 },
         p1 := { status := TouchStatus.Release, x := 0, y := 0 } }) ∧
    scan oScan2 (scan oScan1 TouchData.default).2 =
      (Except.ok { touch_count := 1,
                   p0 := { status := TouchStatus.Stream, x := 105, y := 205 },
                   p1 := { status := TouchStatus.Release, x := 0, y := 0 } },
       { touch_count := 1,
         p0 := { status := TouchStatus.Stream, x := 105, y := 205 },
         p1 := { status := TouchStatus.Release, x := 0, y := 0 } }) ∧
    scan oScan3 (scan oScan2 (scan oScan1 TouchData.default).2).2 =
      (Except.ok { touch_count := 0,
                   p0 := { status := TouchStatus.Release, x := 105, y := 205 },
                   p1 := { status := TouchStatus.Release, x := 0, y := 0 } },
       { touch_count := 0,
         p0 := { status := TouchStatus.Release, x := 105, y := 205 },
         p1 := { status := TouchStatus.Release, x := 0, y := 0 } }) :=
  ⟨rfl, rfl, rfl⟩

end FT6336U
